import Mathlib

/-!
Verification of the Smile Odoo Fabric deployment scripts (`fabfile.py`,
`fabdecorator.py`).

The development shallowly embeds the two Python modules:

* `fabdecorator.py`'s `smile_secure` decorator becomes `SecureParams` /
  `fatalCode`, reproducing Fabric's abort rule: a command aborts the whole
  run exactly when `warn_only` is false and its exit code is outside
  `ok_ret_codes` (Fabric's default is `warn_only = False`,
  `ok_ret_codes = [0]`).  `smile_secure(ok_ret_codes=[])` sets
  `warn_only = not [] = True`, i.e. fully tolerant execution.

* Directory contents are modelled as lists of `FSEntry` (a top-level name,
  a directory flag and an abstract content tag).  The shell commands issued
  by `_clean_sources_dir`, `export_tag` and `compress_archive` are
  translated command by command (`rm -Rf */` removes non-hidden
  directories, `[ -f x ]` tests for a regular file, `ls` omits hidden
  entries, `grep tar.gz` matches the regex `tar.gz` where `.` is a
  wildcard, `svn export` fails when the destination path already exists).

* The two deployment workflows are embedded as straight-line state
  transformers over `DeployState`, with the exit code of every issued
  command injected through an `Outcomes` record; a step whose code is
  fatal for its `SecureParams` aborts the run (result `none`), mirroring
  Fabric's `abort`.  Archives record the path prefix under which GNU tar
  stored their members: `create_savepoint` tars the absolute
  `env.sources_dir` (leading `/` stripped), while `compress_archive` uses
  `-C tag .` and therefore stores members relative to the tag directory.
-/

/- ================================================================
   fabdecorator.py
   ================================================================ -/

/-- Fabric `settings` relevant to command failure, as produced by the
`smile_secure` decorator. -/
structure SecureParams where
  warn_only : Bool
  ok_ret_codes : List Nat
deriving DecidableEq

/-- Source: `smile_secure(ok_ret_codes)` sets `warn_only = not ok_ret_codes`
(empty list is falsy in Python) and installs `ok_ret_codes`. -/
def smile_secure (ok_ret_codes : List Nat) : SecureParams :=
  ⟨ok_ret_codes.isEmpty, ok_ret_codes⟩

/-- Fabric defaults used by undecorated `run`/`sudo`/`local` calls:
abort on any exit code other than 0. -/
def strict_params : SecureParams := ⟨false, [0]⟩

/-- A command's exit code aborts the run iff `warn_only` is off and the
code is outside the allow-list. -/
def fatalCode (p : SecureParams) (code : Nat) : Bool :=
  !p.warn_only && !(p.ok_ret_codes.contains code)

/-- Source: `stop_service` is decorated `@smile_secure([0, 1])`. -/
def stop_service_params : SecureParams := smile_secure [0, 1]

/-- Source: `restore_database` is decorated `@smile_secure()`. -/
def restore_database_params : SecureParams := smile_secure []

/-- Source: `upgrade_database` is decorated `@smile_secure()`. -/
def upgrade_database_params : SecureParams := smile_secure []

theorem fatalCode_restore (c : Nat) :
    fatalCode restore_database_params c = false := rfl

theorem fatalCode_upgrade (c : Nat) :
    fatalCode upgrade_database_params c = false := rfl

theorem fatalCode_strict_zero : fatalCode strict_params 0 = false := rfl

/- ================================================================
   Filesystem model
   ================================================================ -/

/-- A top-level entry of a directory: its name, whether it is a
directory, and an abstract tag standing for its content. -/
structure FSEntry where
  name : String
  isDir : Bool
  data : Nat
deriving DecidableEq

/-- A name is hidden iff it starts with a dot (shell globs `*` and `*/`
and plain `ls` skip such entries). -/
def isHidden (s : String) : Bool :=
  match s.toList with
  | '.' :: _ => true
  | _ => false

/-- Does the regex `tar.gz` (`.` = any character) match at the head of
the character list? -/
def tarGzAt : List Char → Bool
  | 't' :: 'a' :: 'r' :: _ :: 'g' :: 'z' :: _ => true
  | _ => false

/-- Does `grep tar.gz` select this name (regex match anywhere)? -/
def containsTarGz : List Char → Bool
  | [] => false
  | c :: rest => tarGzAt (c :: rest) || containsTarGz rest

def grepTarGz (s : String) : Bool := containsTarGz s.toList

/-- Source: `rm -Rf */` — removes every non-hidden directory. -/
def rm_rf_star_slash (l : List FSEntry) : List FSEntry :=
  l.filter fun e => !(e.isDir && !isHidden e.name)

/-- Source: `rm -Rf .svn` — removes the `.svn` entry. -/
def rm_rf_dot_svn (l : List FSEntry) : List FSEntry :=
  l.filter fun e => !(e.name == ".svn")

/-- Source: `rm -f *` — removes every non-hidden regular file (non-hidden
directories would make `rm` fail, but the previous command already
removed them). -/
def rm_f_star (l : List FSEntry) : List FSEntry :=
  l.filter fun e => !(!e.isDir && !isHidden e.name)

/-- Source: `ls | grep tar.gz | xargs rm -f` — `ls` lists non-hidden entries,
`grep tar.gz` keeps the names matching the regex, `rm -f` removes the
listed regular files. -/
def ls_grep_targz_rm (l : List FSEntry) : List FSEntry :=
  l.filter fun e => !(!e.isDir && !isHidden e.name && grepTarGz e.name)

/-- Source: `_clean_sources_dir` runs, inside the sources directory,
`rm -Rf */`, `rm -Rf .svn`, `rm -f *`,
`ls | grep tar.gz | xargs rm -f`, in this order. -/
def _clean_sources_dir (l : List FSEntry) : List FSEntry :=
  ls_grep_targz_rm (rm_f_star (rm_rf_dot_svn (rm_rf_star_slash l)))

/- ================================================================
   Local tag directory operations (export_tag, compress_archive)
   ================================================================ -/

/-- Test `[ -f n ]`: `n` exists as a regular file. -/
def isFileNamed (fs : List FSEntry) (n : String) : Bool :=
  fs.any fun e => e.name == n && !e.isDir

/-- Predicate: `n` exists as any kind of entry. -/
def pathNamed (fs : List FSEntry) (n : String) : Bool :=
  fs.any fun e => e.name == n

/-- Source: `rm -Rf n`: remove whatever is called `n`. -/
def removeNamed (fs : List FSEntry) (n : String) : List FSEntry :=
  fs.filter fun e => !(e.name == n)

/-- Content tag of the directory entry called `n`, if there is one. -/
def lookupDirData (fs : List FSEntry) (n : String) : Option Nat :=
  ((fs.filter fun e => e.name == n && e.isDir).head?).map FSEntry.data

/-- Source: `export_tag(tag, force_export_tag)` run in the local tag directory
`fs`; `svnTagData` is the current content of `tags/<tag>` in the SVN
repository (an `svn export` of a tag always produces a directory).
Returns `(ok, fs)` where `ok = false` means a command exited non-zero
and `local()` aborted the run.

Commands, verbatim from the source:
`[ -f tag ] || rm -Rf tag` (only when forcing), then
`[ -f tag ] || svn export <repo>/tags/tag tag`.
`svn export` without `--force` fails when its destination path already
exists. -/
def export_tag (svnTagData : Nat) (tag : String) (force_export_tag : Bool)
    (fs : List FSEntry) : Bool × List FSEntry :=
  let fs1 := if force_export_tag && !isFileNamed fs tag then removeNamed fs tag else fs
  if isFileNamed fs1 tag then (true, fs1)
  else if pathNamed fs1 tag then (false, fs1)
  else (true, ⟨tag, true, svnTagData⟩ :: fs1)

/-- The archive filename built by `compress_archive`:
`"odoo-%s.tag.gz" % tag`. -/
def archive_name (tag : String) : String := "odoo-" ++ tag ++ ".tag.gz"

/-- Source: `compress_archive(tag, force_export_tag)` run in the local tag
directory `fs`.  Returns `(ok, archive, fs)`.

Commands, verbatim from the source:
`[ -f archive ] || rm -f archive` (only when forcing; `rm -f` fails on a
directory), then
`[ -f archive ] || tar -zcvf archive -C tag . --exclude-vcs`
(which fails when the tag directory is missing, and otherwise packs the
tag directory's content). -/
def compress_archive (tag : String) (force_export_tag : Bool)
    (fs : List FSEntry) : Bool × String × List FSEntry :=
  let a := archive_name tag
  if force_export_tag && !isFileNamed fs a && pathNamed fs a then (false, a, fs)
  else
    let fs1 := if force_export_tag && !isFileNamed fs a then removeNamed fs a else fs
    if isFileNamed fs1 a then (true, a, fs1)
    else
      match lookupDirData fs1 tag with
      | none => (false, a, fs1)
      | some d => (true, a, ⟨a, false, d⟩ :: fs1)

/- ================================================================
   Import-time Fabric version check (fabfile.py lines 16-19)
   ================================================================ -/

/-- Source: `LooseVersion` comparison restricted to numeric dotted versions:
Python's list comparison, i.e. lexicographic with shorter-prefix
smaller. -/
def versionLt : List Nat → List Nat → Bool
  | [], [] => false
  | [], _ :: _ => true
  | _ :: _, [] => false
  | x :: xs, y :: ys => x < y || (x == y && versionLt xs ys)

/-- Source: `min_version = '1.6.1'`. -/
def min_version : List Nat := [1, 6, 1]

/-- Module import: `raise ImportError` when the installed Fabric version
is below `min_version`, otherwise import proceeds (and with it the two
`@task` entry points become available). -/
def fabric_import_check (version : List Nat) : Except String Unit :=
  if versionLt version min_version then
    Except.error "Fabric version not supported"
  else Except.ok ()

/- ================================================================
   Deployment workflow model
   ================================================================ -/

/-- A gzip tar archive sitting in the remote backup directory.
`root` is the path prefix under which GNU tar stored the members:
`create_savepoint` runs `tar -zcvf <sp> <sources_dir> --exclude-vcs`,
so the members carry the absolute sources path with the leading `/`
stripped (e.g. `opt/openerp/...`); `compress_archive` uses
`-C <tag> .`, so its members are relative (`root = []`).
`content` is the archived top-level content, `tagId` identifies the
archived tree. -/
structure SvArchive where
  root : List String
  content : List FSEntry
  tagId : Nat
deriving DecidableEq

/-- Extracting an archive into the current directory.  With relative
members the archived content lands at top level; with members rooted at
`r :: _` tar recreates the stored path, so the only top-level entry
created is the directory `r` (whose nested content we summarise by the
archive's `tagId` — no claim inspects below the top level). -/
def extractEntries (a : SvArchive) : List FSEntry :=
  match a.root with
  | [] => a.content
  | r :: _ => [⟨r, true, a.tagId⟩]

/-- Split a path string on `/`. -/
def splitSlashAux : List Char → List Char → List (List Char)
  | [], acc => [acc.reverse]
  | '/' :: rest, acc => acc.reverse :: splitSlashAux rest []
  | c :: rest, acc => splitSlashAux rest (c :: acc)

/-- Non-empty components of a path — the member prefix GNU tar stores
for that path after removing the leading `/`. -/
def pathComponents (p : String) : List String :=
  ((splitSlashAux p.toList []).filter (· ≠ [])).map (fun l => String.mk l)

/-- State of the remote host (plus the deployment clock used for
timestamped filenames). -/
structure DeployState where
  sources : List FSEntry
  db : Nat
  backups : List (String × Nat)
  savepoints : List (String × SvArchive)
  archives : List (String × SvArchive)
  serviceRunning : Bool
  clock : Nat
deriving DecidableEq

/-- Resolved configuration plus the SVN repository content used by the
run: `branchContent` is the top-level content of `branches/<version>`
checked out by workflow A, `tagContent` the content of `tags/<tag>`
packed and transferred by workflow B. -/
structure Env where
  backup_dir : String
  sources_dir : String
  branchContent : List FSEntry
  tagContent : List FSEntry
deriving DecidableEq

/-- Exit codes of the commands the orchestrator issues (fault
injection), plus the database state an upgrade attempt leaves behind. -/
structure Outcomes where
  createBranchCode : Nat
  exportCode : Nat
  compressCode : Nat
  putCode : Nat
  stopCode : Nat
  savepointCode : Nat
  dumpCode : Nat
  restoreCode : Nat
  checkoutCode : Nat
  uncompressCode : Nat
  upgradeCode : Nat
  upgradedDb : Nat
  rbCleanCode : Nat
  rbUncompressCode : Nat
  dropCode : Nat
  startCode : Nat
deriving DecidableEq

/-- The steps a run performs, in order. -/
inductive Act where
  | createBranch (version : String)
  | exportTagStep (tag : String)
  | compressStep (tag : String)
  | putStep (archive : String)
  | stopService (code : Nat)
  | createSavepoint (name : String)
  | dumpDb (db_name : String) (filename : String)
  | restoreDb (db_name : String) (backup : String)
  | checkoutBranch (version : String)
  | uncompressStep (archive : String)
  | upgradeDb (db_name : String) (code : Nat)
  | rollbackStep (savepoint : String)
  | dropSavepoint (name : String)
  | startService
deriving DecidableEq

/-- Source: `time.strftime('%Y%m%d_%H%M%S')`, abstracted to the run's clock. -/
def timeStr (n : Nat) : String := toString n

/-- Source: `'%s_%s.dump' % (db_name, timestamp)` joined onto the backup
directory — `dump_database` writes the file in `backup_dir` and returns
`os.path.join(env.backup_dir, filename)`; we key the stored backup by
that full path. -/
def dumpFileName (env : Env) (db_name : String) (clock : Nat) : String :=
  env.backup_dir ++ "/" ++ db_name ++ "_" ++ timeStr clock ++ ".dump"

/-- Source: `'savepoint_%s.tag.gz' % timestamp`. -/
def savepointName (clock : Nat) : String :=
  "savepoint_" ++ timeStr clock ++ ".tag.gz"

/-- Source: `dump_database(db_name)`: `pg_dump` captures the current database
state into a fresh timestamped file in the backup directory and the
full path is returned. -/
def dump_database (env : Env) (db_name : String) (s : DeployState) :
    String × DeployState :=
  let filename := dumpFileName env db_name s.clock
  (filename,
   { s with backups := (filename, s.db) :: s.backups, clock := s.clock + 1 })

/-- Source: `restore_database(db_name, backup)`: `pg_restore` replaces the
database with the state captured in `backup`; when no such dump file
exists the restore fails (warn-only) and the database is unchanged. -/
def restore_database (db_name : String) (backup : String)
    (s : DeployState) : DeployState :=
  match s.backups.lookup backup with
  | some d => { s with db := d }
  | none => s

/-- Python truthiness of the `backup` argument (`if backup:`):
`None` and the empty string are falsy. -/
def truthy : Option String → Bool
  | none => false
  | some b => !(b == "")

/-- Source: `dump_or_restore_database(db_name, backup)`:
`if backup: restore_database(db_name, backup); return backup` else
`return dump_database(db_name)`.  The restore path runs under
`smile_secure()` (never fatal), the dump path under Fabric's strict
default.  Returns `(ok, backup name, new state, actions)`. -/
def dump_or_restore_database (env : Env) (o : Outcomes) (db_name : String)
    (backup : Option String) (s : DeployState) :
    Bool × String × DeployState × List Act :=
  if truthy backup then
    let b := backup.getD ""
    if fatalCode restore_database_params o.restoreCode then
      (false, b, s, [Act.restoreDb db_name b])
    else
      (true, b, restore_database db_name b s, [Act.restoreDb db_name b])
  else
    let filename := dumpFileName env db_name s.clock
    if fatalCode strict_params o.dumpCode then
      (false, filename, s, [Act.dumpDb db_name filename])
    else
      (true, filename, (dump_database env db_name s).2,
       [Act.dumpDb db_name filename])

/-- Source: `create_savepoint()`: in the backup directory,
`tar -zcvf savepoint_<ts>.tag.gz <sources_dir> --exclude-vcs`.
The archive captures the sources content, with members rooted at the
absolute sources path (leading `/` stripped by tar). -/
def create_savepoint (env : Env) (s : DeployState) : String × DeployState :=
  let name := savepointName s.clock
  let arch : SvArchive := ⟨pathComponents env.sources_dir, s.sources, s.clock⟩
  (name,
   { s with savepoints := (name, arch) :: s.savepoints, clock := s.clock + 1 })

/-- Source: `uncompress_archive` / rollback extraction helper: look an archive
up in a name-indexed list and extract it (a missing archive extracts
nothing; tar's failure is reported through the step's exit code). -/
def extractFrom (l : List (String × SvArchive)) (name : String) :
    List FSEntry :=
  match l.lookup name with
  | some a => extractEntries a
  | none => []

/-- Source: `rollback(savepoint, db_name, backup)`:
`dump_or_restore_database(db_name, backup)` (in the workflows `backup`
is a non-empty string here, so this is the warn-only restore path),
then `_clean_sources_dir()` (strict), then
`uncompress_archive(savepoint)` = `_clean_sources_dir()` again plus
`tar -zxvf <backup_dir>/<savepoint>` in the sources directory
(strict).  Returns `(ok, state, actions)`. -/
def rollback (env : Env) (o : Outcomes) (savepoint db_name backup : String)
    (s : DeployState) : Bool × DeployState × List Act :=
  let r := dump_or_restore_database env o db_name (some backup) s
  let acts := Act.rollbackStep savepoint :: r.2.2.2
  if !r.1 then (false, r.2.2.1, acts)
  else
    let s1 := r.2.2.1
    if fatalCode strict_params o.rbCleanCode then (false, s1, acts)
    else
      let s2 := { s1 with sources := _clean_sources_dir s1.sources }
      if fatalCode strict_params o.rbUncompressCode then (false, s2, acts)
      else
        (true,
         { s2 with sources :=
             _clean_sources_dir s2.sources ++ extractFrom s2.savepoints savepoint },
         acts)

/-- Steps 8 and 9 shared by both workflows:
`drop_savepoint(savepoint)` (`rm -f savepoint` in the backup directory,
strict) then `start_service()` (strict). -/
def finish_deploy (o : Outcomes) (sp : String) (s : DeployState)
    (tr : List Act) : List Act × Option DeployState :=
  let tr1 := tr ++ [Act.dropSavepoint sp]
  if fatalCode strict_params o.dropCode then (tr1, none)
  else
    let s1 := { s with savepoints := s.savepoints.filter fun p => !(p.1 == sp) }
    let tr2 := tr1 ++ [Act.startService]
    if fatalCode strict_params o.startCode then (tr2, none)
    else (tr2, some { s1 with serviceRunning := true })

/-- Source: `deploy_for_internal_testing(version, db_name, backup=None,
do_not_create_branch=False)`, fabfile.py lines 258-283.  Returns the
trace of attempted steps and `some` final state, or `none` when a
fatal command aborted the run. -/
def deploy_for_internal_testing (env : Env) (o : Outcomes)
    (version db_name : String) (backup : Option String)
    (do_not_create_branch : Bool) (s : DeployState) :
    List Act × Option DeployState :=
  let tr0 : List Act :=
    if do_not_create_branch then [] else [Act.createBranch version]
  if !do_not_create_branch && fatalCode strict_params o.createBranchCode then
    (tr0, none)
  else
    let tr1 := tr0 ++ [Act.stopService o.stopCode]
    if fatalCode stop_service_params o.stopCode then (tr1, none)
    else
      let s1 := { s with serviceRunning := false }
      let sp := savepointName s1.clock
      let tr2 := tr1 ++ [Act.createSavepoint sp]
      if fatalCode strict_params o.savepointCode then (tr2, none)
      else
        let s2 := (create_savepoint env s1).2
        let r4 := dump_or_restore_database env o db_name backup s2
        let tr3 := tr2 ++ r4.2.2.2
        if !r4.1 then (tr3, none)
        else
          let backupName := r4.2.1
          let s3 := r4.2.2.1
          let tr4 := tr3 ++ [Act.checkoutBranch version]
          if fatalCode strict_params o.checkoutCode then (tr4, none)
          else
            let s4 := { s3 with
              sources := _clean_sources_dir s3.sources ++ env.branchContent }
            let tr5 := tr4 ++ [Act.upgradeDb db_name o.upgradeCode]
            let s5 := { s4 with db := o.upgradedDb }
            if o.upgradeCode ≠ 0 then
              let r7 := rollback env o sp db_name backupName s5
              let tr6 := tr5 ++ r7.2.2
              if !r7.1 then (tr6, none)
              else finish_deploy o sp r7.2.1 tr6
            else finish_deploy o sp s5 tr5

/-- Source: `deploy_for_customer_testing(tag, db_name, backup=None,
force_export_tag=False)`, fabfile.py lines 286-312.  The local
`export_tag` / `compress_archive` / `put` steps are abstracted by their
exit codes (their detailed local-directory semantics is modelled by
`export_tag` / `compress_archive` above); `put_archive` copies the
packed tag archive (relative members, `-C tag .`) into the remote
backup directory. -/
def deploy_for_customer_testing (env : Env) (o : Outcomes)
    (tag db_name : String) (backup : Option String)
    (force_export_tag : Bool) (s : DeployState) :
    List Act × Option DeployState :=
  let tr0 := [Act.exportTagStep tag]
  if fatalCode strict_params o.exportCode then (tr0, none)
  else
    let a := archive_name tag
    let tr1 := tr0 ++ [Act.compressStep tag]
    if fatalCode strict_params o.compressCode then (tr1, none)
    else
      let tr2 := tr1 ++ [Act.putStep a]
      if fatalCode strict_params o.putCode then (tr2, none)
      else
        let s1 := { s with archives := (a, ⟨[], env.tagContent, 0⟩) :: s.archives }
        let tr3 := tr2 ++ [Act.stopService o.stopCode]
        if fatalCode stop_service_params o.stopCode then (tr3, none)
        else
          let s2 := { s1 with serviceRunning := false }
          let sp := savepointName s2.clock
          let tr4 := tr3 ++ [Act.createSavepoint sp]
          if fatalCode strict_params o.savepointCode then (tr4, none)
          else
            let s3 := (create_savepoint env s2).2
            let r6 := dump_or_restore_database env o db_name backup s3
            let tr5 := tr4 ++ r6.2.2.2
            if !r6.1 then (tr5, none)
            else
              let backupName := r6.2.1
              let s4 := r6.2.2.1
              let tr6 := tr5 ++ [Act.uncompressStep a]
              if fatalCode strict_params o.uncompressCode then (tr6, none)
              else
                let s5 := { s4 with
                  sources := _clean_sources_dir s4.sources ++ extractFrom s4.archives a }
                let tr7 := tr6 ++ [Act.upgradeDb db_name o.upgradeCode]
                let s6 := { s5 with db := o.upgradedDb }
                if o.upgradeCode ≠ 0 then
                  let r9 := rollback env o sp db_name backupName s6
                  let tr8 := tr7 ++ r9.2.2
                  if !r9.1 then (tr8, none)
                  else finish_deploy o sp r9.2.1 tr8
                else finish_deploy o sp s6 tr7

/- ================================================================
   Act predicates and trace helpers
   ================================================================ -/

def isStopA : Act → Bool
  | .stopService _ => true
  | _ => false

def isCreateSpA : Act → Bool
  | .createSavepoint _ => true
  | _ => false

def isDropA : Act → Bool
  | .dropSavepoint _ => true
  | _ => false

def isStartA : Act → Bool
  | .startService => true
  | _ => false

def isUpgradeA : Act → Bool
  | .upgradeDb _ _ => true
  | _ => false

def isRollbackA : Act → Bool
  | .rollbackStep _ => true
  | _ => false

/-- Steps that mutate the sources directory or the database. -/
def touchesA : Act → Bool
  | .restoreDb _ _ => true
  | .checkoutBranch _ => true
  | .uncompressStep _ => true
  | .upgradeDb _ _ => true
  | .rollbackStep _ => true
  | _ => false

/-- Predicate `afterOnly p q tr` holds when no `q`-step occurs before the first
`p`-step of the trace (in particular a trace with a `q`-step but no
`p`-step fails). -/
def afterOnly (p q : Act → Bool) : List Act → Bool
  | [] => true
  | a :: tl => if q a then false else if p a then true else afterOnly p q tl

/-- Dropping a savepoint removes every file of that name. -/
theorem lookup_filter_ne {β : Type} (l : List (String × β)) (k : String) :
    (l.filter fun p => !(p.1 == k)).lookup k = none := by
  induction l with
  | nil => rfl
  | cons h t ih =>
    by_cases hk : h.1 = k
    · simp [List.filter, hk, ih]
    · simp only [List.filter]
      have : (h.1 == k) = false := by simp [hk]
      simp [this, List.lookup, ih, BEq.symm_false this]


/- ================================================================
   Concrete fixtures
   ================================================================ -/

/-- All commands exit 0; a successful upgrade leaves database state 42. -/
def oZero : Outcomes := ⟨0, 0, 0, 0, 0, 0, 0, 0, 0, 0, 0, 42, 0, 0, 0, 0⟩

/-- Default directories from `fabdecorator.DEFAULTS`; the deployed
branch carries a hidden file `.rc` and a module directory `newmod`. -/
def env0 : Env :=
  ⟨"/home/postgres", "/opt/openerp",
   [⟨".rc", false, 7⟩, ⟨"newmod", true, 8⟩], [⟨"web", true, 9⟩]⟩

/-- Initial host state: sources hold one module directory `addons`,
database state 10, empty backup directory, service running. -/
def st0 : DeployState := ⟨[⟨"addons", true, 1⟩], 10, [], [], [], true, 0⟩

/- ================================================================
   C10
   ================================================================ -/

/-- C10: importing the module raises `ImportError` exactly when the
installed Fabric version is below `1.6.1`; for every version at or
above `1.6.1` the check passes and import (and with it the two task
entry points) proceeds. -/
theorem import_check_iff_version_supported (v : List Nat) :
    (fabric_import_check v = Except.ok ()) ↔ versionLt v min_version = false := by
  unfold fabric_import_check
  by_cases h : versionLt v min_version = true <;> simp [h]

/- ================================================================
   C9
   ================================================================ -/

/-- C9 counterexample: `restore_database` does not tolerate a specific
allow-list of exit codes outside of which the call is fatal —
`smile_secure()` sets `warn_only`, so *no* exit code is fatal, and no
(finite) allow-list describes its tolerance. -/
theorem restore_has_no_fatal_exit_code :
    ¬ ∃ S : Finset ℕ, ∀ c : ℕ,
        (fatalCode restore_database_params c = false ↔ c ∈ S) := by
  rintro ⟨S, hS⟩
  obtain ⟨c, hc⟩ := Infinite.exists_not_mem_finset S
  exact hc ((hS c).mp rfl)

/-- C9 amended: `stop_service` tolerates exactly exit codes 0 and 1
(any other exit code is fatal), while `restore_database` is executed
warn-only: every exit code completes without aborting. -/
theorem tolerated_exit_codes (c : Nat) :
    (fatalCode stop_service_params c = false ↔ (c = 0 ∨ c = 1)) ∧
    fatalCode restore_database_params c = false := by
  refine ⟨?_, rfl⟩
  rcases c with _ | _ | n <;>
    simp [fatalCode, stop_service_params, smile_secure, List.contains]

/- ================================================================
   C8
   ================================================================ -/

/-- C8: `_clean_sources_dir` on a directory holding a freshly
transferred archive `backup.tar.gz`, a hidden cache directory, `.svn`
and ordinary content: the archive is deleted (`rm -f *` and
`ls | grep tar.gz | xargs rm -f` both remove it, despite the source
comment "all files except for *.tar.gz"), while the hidden non-`.svn`
entry survives every command. -/
theorem clean_sources_dir_deletes_archives_keeps_hidden :
    _clean_sources_dir
      [⟨"backup.tar.gz", false, 1⟩, ⟨".cache", true, 2⟩, ⟨".svn", true, 3⟩,
       ⟨"addons", true, 4⟩, ⟨"README", false, 5⟩] = [⟨".cache", true, 2⟩] := by
  decide

/- ================================================================
   C7
   ================================================================ -/

/-- C7: with the archive already on disk and the tag content changed
(tag directory content 7, stale archive content 5), a forced
`compress_archive` leaves the filesystem unchanged: the force command
`[ -f archive ] || rm -f archive` skips the delete exactly when the
archive exists, so the pack step is also skipped and the stale artifact
is kept. -/
theorem compress_archive_force_skips_rebuild :
    compress_archive "v1" true [⟨"odoo-v1.tag.gz", false, 5⟩, ⟨"v1", true, 7⟩] =
      (true, "odoo-v1.tag.gz",
       [⟨"odoo-v1.tag.gz", false, 5⟩, ⟨"v1", true, 7⟩]) := by
  decide

/-- Companion fact for the archive path: a second non-forced call finds
the deterministically named artifact and skips the pack step. -/
theorem compress_archive_idempotent_without_force :
    compress_archive "v1" false [⟨"v1", true, 7⟩] =
      (true, "odoo-v1.tag.gz", [⟨"odoo-v1.tag.gz", false, 7⟩, ⟨"v1", true, 7⟩]) ∧
    compress_archive "v1" false [⟨"odoo-v1.tag.gz", false, 7⟩, ⟨"v1", true, 7⟩] =
      (true, "odoo-v1.tag.gz", [⟨"odoo-v1.tag.gz", false, 7⟩, ⟨"v1", true, 7⟩]) := by
  decide

/- ================================================================
   C6
   ================================================================ -/

/-- C6: a first non-forced `export_tag` exports the tag (a directory);
the second call does *not* skip — the guard `[ -f tag ]` tests for a
regular file, the export is a directory, so `svn export` runs again
and fails on the existing destination, aborting the run. -/
theorem export_tag_second_call_aborts :
    export_tag 5 "v1" false [] = (true, [⟨"v1", true, 5⟩]) ∧
    (export_tag 5 "v1" false [⟨"v1", true, 5⟩]).1 = false := by
  decide

/- ================================================================
   C5
   ================================================================ -/

/-- C5 counterexample: an explicitly supplied *empty* backup string is
falsy in Python, so `dump_or_restore_database` takes the dump path —
it performs a dump and does not restore, although a backup was
supplied. -/
theorem dump_or_restore_empty_string_dumps :
    dump_or_restore_database env0 oZero "demo" (some "") st0 =
      (true, "/home/postgres/demo_0.dump",
       ⟨[⟨"addons", true, 1⟩], 10, [("/home/postgres/demo_0.dump", 10)],
        [], [], true, 1⟩,
       [Act.dumpDb "demo" "/home/postgres/demo_0.dump"]) := by
  decide

/-- C5 amended: for `backup = None` (and an empty string) the function
dumps fresh and returns the new backup, whose filename embeds the
database name and a timestamp; for any *non-empty* supplied backup it
restores from it, returns it unchanged, and performs no dump (the
backup list and the timestamp clock are untouched). -/
theorem dump_or_restore_database_spec (env : Env) (o : Outcomes)
    (db_name : String) (s : DeployState) (hdump : o.dumpCode = 0) :
    (dump_or_restore_database env o db_name none s =
       (true, dumpFileName env db_name s.clock,
        { s with backups := (dumpFileName env db_name s.clock, s.db) :: s.backups,
                 clock := s.clock + 1 },
        [Act.dumpDb db_name (dumpFileName env db_name s.clock)])) ∧
    (∀ b : String, b ≠ "" →
       dump_or_restore_database env o db_name (some b) s =
         (true, b, restore_database db_name b s, [Act.restoreDb db_name b])) ∧
    (∀ b, (restore_database db_name b s).backups = s.backups) ∧
    (∀ b, (restore_database db_name b s).clock = s.clock) ∧
    dumpFileName env db_name s.clock =
      env.backup_dir ++ "/" ++ db_name ++ "_" ++ timeStr s.clock ++ ".dump" := by
  refine ⟨?_, ?_, ?_, ?_, rfl⟩
  · simp [dump_or_restore_database, truthy, hdump, fatalCode_strict_zero,
      dump_database]
  · intro b hb
    simp [dump_or_restore_database, truthy, hb, fatalCode_restore]
  · intro b; unfold restore_database; cases h : s.backups.lookup b <;> simp [h]
  · intro b; unfold restore_database; cases h : s.backups.lookup b <;> simp [h]

/-- C5 witness. -/
theorem dump_or_restore_database_spec_witness :
    dump_or_restore_database env0 oZero "demo" (some "/home/postgres/b.dump") st0 =
      (true, "/home/postgres/b.dump",
       restore_database "demo" "/home/postgres/b.dump" st0,
       [Act.restoreDb "demo" "/home/postgres/b.dump"]) :=
  (dump_or_restore_database_spec env0 oZero "demo" st0 rfl).2.1
    "/home/postgres/b.dump" (by decide)

/- ================================================================
   C1
   ================================================================ -/

/-- Outcomes of the C1 failing run: every command exits 0 except the
upgrade, which exits 1 after leaving database state 99. -/
def oC1 : Outcomes := { oZero with upgradeCode := 1, upgradedDb := 99 }

/-- C1: a failed internal-testing deployment from `st0`.  The rollback
restores the database to the dumped state 10, but the sources directory
does *not* equal the savepoint content: the savepoint was created with
`tar -zcvf sp /opt/openerp` (absolute path, no `-C`), so extracting it
inside `/opt/openerp` recreates the tree nested under a new top-level
`opt` directory, and the branch's hidden file `.rc` survives
`_clean_sources_dir`.  The snapshot content `[addons]` is not
restored. -/
theorem rollback_does_not_restore_sources :
    (deploy_for_internal_testing env0 oC1 "1.2" "demo" none true st0).2 =
      some ⟨[⟨".rc", false, 7⟩, ⟨"opt", true, 0⟩], 10,
            [("/home/postgres/demo_1.dump", 10)], [], [], true, 2⟩ ∧
    [⟨".rc", false, 7⟩, ⟨"opt", true, 0⟩] ≠ st0.sources := by
  decide

/- ================================================================
   C2 counterexample
   ================================================================ -/

/-- Outcomes of the C2 run: the restore step exits 2, everything else
exits 0. -/
def oC2 : Outcomes := { oZero with restoreCode := 2 }

/-- C2 counterexample: with a supplied backup, a *failing* restore step
(exit code 2) does not abort the workflow — `restore_database` runs
under `smile_secure()`, i.e. warn-only — the run completes and the
service is started, contradicting "a failure in any earlier step …
propagates as a fatal error, the workflow aborts immediately". -/
theorem restore_failure_does_not_abort :
    ((deploy_for_internal_testing env0 oC2 "1.2" "demo"
        (some "/home/postgres/b.dump") true st0).2).isSome = true ∧
    (deploy_for_internal_testing env0 oC2 "1.2" "demo"
        (some "/home/postgres/b.dump") true st0).1.any isStartA = true := by
  decide

/- ================================================================
   C4 counterexample
   ================================================================ -/

/-- Outcomes of the C4 run: the upgrade exits 1, and the savepoint
extraction inside the rollback exits 2; everything else exits 0. -/
def oC4 : Outcomes :=
  { oZero with upgradeCode := 1, upgradedDb := 99, rbUncompressCode := 2 }

/-- C4 counterexample: when the rollback itself fails (savepoint
extraction exits 2), the abort propagates before step 8 — the run ends
fatally with the savepoint created but never dropped, so the savepoint
is *not* dropped on this exit path. -/
theorem savepoint_not_dropped_when_rollback_fails :
    (deploy_for_internal_testing env0 oC4 "1.2" "demo" none true st0).2 = none ∧
    (deploy_for_internal_testing env0 oC4 "1.2" "demo" none true st0).1.countP
        isCreateSpA = 1 ∧
    (deploy_for_internal_testing env0 oC4 "1.2" "demo" none true st0).1.countP
        isDropA = 0 := by
  decide

/- ================================================================
   C3
   ================================================================ -/

/-- A dump filename is never the empty string, so the backup handed to
a rollback is always truthy. -/
theorem append_dump_ne_empty (a : String) : ¬(a ++ ".dump" = "") := by
  intro h
  have hl := congrArg String.length h
  rw [String.length_append] at hl
  have h5 : ".dump".length = 5 := rfl
  have h0 : ("" : String).length = 0 := rfl
  omega

theorem restore_database_sources (n b : String) (s : DeployState) :
    (restore_database n b s).sources = s.sources := by
  unfold restore_database; cases s.backups.lookup b <;> rfl

theorem restore_database_backups (n b : String) (s : DeployState) :
    (restore_database n b s).backups = s.backups := by
  unfold restore_database; cases s.backups.lookup b <;> rfl

theorem restore_database_savepoints (n b : String) (s : DeployState) :
    (restore_database n b s).savepoints = s.savepoints := by
  unfold restore_database; cases s.backups.lookup b <;> rfl

theorem restore_database_archives (n b : String) (s : DeployState) :
    (restore_database n b s).archives = s.archives := by
  unfold restore_database; cases s.backups.lookup b <;> rfl

theorem restore_database_serviceRunning (n b : String) (s : DeployState) :
    (restore_database n b s).serviceRunning = s.serviceRunning := by
  unfold restore_database; cases s.backups.lookup b <;> rfl

theorem restore_database_clock (n b : String) (s : DeployState) :
    (restore_database n b s).clock = s.clock := by
  unfold restore_database; cases s.backups.lookup b <;> rfl

/-- C3: in both workflows, whenever the run reaches the upgrade step
(no earlier command fails fatally) and the cleanup commands themselves
succeed, then — whether the upgrade succeeds or a rollback is performed
(any `upgradeCode`) — the run completes, the savepoint file created for
the attempt no longer exists, and the service is running. -/
theorem cleanup_always_runs (env : Env) (o : Outcomes)
    (version db_name tag : String) (backup : Option String)
    (dnb force : Bool) (s : DeployState)
    (hbr : o.createBranchCode = 0) (hex : o.exportCode = 0)
    (hco : o.compressCode = 0) (hpu : o.putCode = 0)
    (hst : fatalCode stop_service_params o.stopCode = false)
    (hsp : o.savepointCode = 0) (hdu : o.dumpCode = 0)
    (hch : o.checkoutCode = 0) (hun : o.uncompressCode = 0)
    (hrc : o.rbCleanCode = 0) (hru : o.rbUncompressCode = 0)
    (hdr : o.dropCode = 0) (hsa : o.startCode = 0) :
    (∃ s1, (deploy_for_internal_testing env o version db_name backup dnb s).2 =
        some s1 ∧
      s1.savepoints.lookup (savepointName s.clock) = none ∧
      s1.serviceRunning = true) ∧
    (∃ s2, (deploy_for_customer_testing env o tag db_name backup force s).2 =
        some s2 ∧
      s2.savepoints.lookup (savepointName s.clock) = none ∧
      s2.serviceRunning = true) := by
  constructor
  · rcases backup with _ | b
    · by_cases hup : o.upgradeCode = 0 <;>
        simp [deploy_for_internal_testing, dump_or_restore_database, rollback,
          finish_deploy, create_savepoint, dump_database, truthy, hup,
          hbr, hst, hsp, hdu, hch, hrc, hru, hdr, hsa,
          fatalCode_strict_zero, fatalCode_restore, dumpFileName,
          append_dump_ne_empty, restore_database_savepoints,
          restore_database_serviceRunning, lookup_filter_ne] <;>
        exact fun a b _ hne h => hne h.symm
    · by_cases hb : b = "" <;> by_cases hup : o.upgradeCode = 0 <;>
        simp [deploy_for_internal_testing, dump_or_restore_database, rollback,
          finish_deploy, create_savepoint, dump_database, truthy, hb, hup,
          hbr, hst, hsp, hdu, hch, hrc, hru, hdr, hsa,
          fatalCode_strict_zero, fatalCode_restore, dumpFileName,
          append_dump_ne_empty, restore_database_savepoints,
          restore_database_serviceRunning, lookup_filter_ne] <;>
        exact fun a b _ hne h => hne h.symm
  · rcases backup with _ | b
    · by_cases hup : o.upgradeCode = 0 <;>
        simp [deploy_for_customer_testing, dump_or_restore_database, rollback,
          finish_deploy, create_savepoint, dump_database, truthy, hup,
          hex, hco, hpu, hst, hsp, hdu, hun, hrc, hru, hdr, hsa,
          fatalCode_strict_zero, fatalCode_restore, dumpFileName,
          append_dump_ne_empty, restore_database_savepoints,
          restore_database_serviceRunning, lookup_filter_ne] <;>
        exact fun a b _ hne h => hne h.symm
    · by_cases hb : b = "" <;> by_cases hup : o.upgradeCode = 0 <;>
        simp [deploy_for_customer_testing, dump_or_restore_database, rollback,
          finish_deploy, create_savepoint, dump_database, truthy, hb, hup,
          hex, hco, hpu, hst, hsp, hdu, hun, hrc, hru, hdr, hsa,
          fatalCode_strict_zero, fatalCode_restore, dumpFileName,
          append_dump_ne_empty, restore_database_savepoints,
          restore_database_serviceRunning, lookup_filter_ne] <;>
        exact fun a b _ hne h => hne h.symm

/-- C3 witness: runs from the concrete fixture. -/
theorem cleanup_always_runs_witness :
    (∃ s1, (deploy_for_internal_testing env0 oZero "1.2" "demo" none true st0).2 =
        some s1 ∧
      s1.savepoints.lookup (savepointName st0.clock) = none ∧
      s1.serviceRunning = true) ∧
    (∃ s2, (deploy_for_customer_testing env0 oZero "v1" "demo" none false st0).2 =
        some s2 ∧
      s2.savepoints.lookup (savepointName st0.clock) = none ∧
      s2.serviceRunning = true) :=
  cleanup_always_runs env0 oZero "1.2" "demo" "v1" none true false st0
    rfl rfl rfl rfl rfl rfl rfl rfl rfl rfl rfl rfl rfl


/- ================================================================
   C2 amended
   ================================================================ -/

set_option maxHeartbeats 1000000 in
/-- C2 amended: in both workflows (a) the rollback operation runs iff
the upgrade step ran and returned a non-zero exit code; (b) a fatal
failure before the upgrade step aborts the run with no rollback, no
savepoint drop and no service start, and a fatal exit code in any
pre-upgrade step (branch creation, export, compress, put, stop outside
its allow-list, savepoint creation, fresh dump, checkout/unpack) makes
the run abort before the upgrade; (c) the restore step (taken when
a backup is supplied) runs warn-only — the run is independent of the
restore command's exit code, so a failing restore never aborts (the
claim's "a failure in any earlier step … propagates as a fatal error"
does not hold for the restore step). -/
theorem rollback_iff_upgrade_nonzero (env : Env) (o : Outcomes)
    (version db_name tag : String) (backup : Option String)
    (dnb force : Bool) (s : DeployState) :
    (((deploy_for_internal_testing env o version db_name backup dnb s).1.any
        isRollbackA = true) ↔
      ((deploy_for_internal_testing env o version db_name backup dnb s).1.any
        isUpgradeA = true ∧ o.upgradeCode ≠ 0)) ∧
    ((deploy_for_internal_testing env o version db_name backup dnb s).2 = none →
      (deploy_for_internal_testing env o version db_name backup dnb s).1.any
        isUpgradeA = false →
      (deploy_for_internal_testing env o version db_name backup dnb s).1.any
          isRollbackA = false ∧
      (deploy_for_internal_testing env o version db_name backup dnb s).1.any
          isDropA = false ∧
      (deploy_for_internal_testing env o version db_name backup dnb s).1.any
          isStartA = false) ∧
    (((dnb = false ∧ fatalCode strict_params o.createBranchCode = true) ∨
        fatalCode stop_service_params o.stopCode = true ∨
        fatalCode strict_params o.savepointCode = true ∨
        (truthy backup = false ∧ fatalCode strict_params o.dumpCode = true) ∨
        fatalCode strict_params o.checkoutCode = true) →
      (deploy_for_internal_testing env o version db_name backup dnb s).2 =
          none ∧
      (deploy_for_internal_testing env o version db_name backup dnb s).1.any
          isUpgradeA = false) ∧
    (∀ c, deploy_for_internal_testing env { o with restoreCode := c }
        version db_name backup dnb s =
      deploy_for_internal_testing env o version db_name backup dnb s) ∧
    (((deploy_for_customer_testing env o tag db_name backup force s).1.any
        isRollbackA = true) ↔
      ((deploy_for_customer_testing env o tag db_name backup force s).1.any
        isUpgradeA = true ∧ o.upgradeCode ≠ 0)) ∧
    ((deploy_for_customer_testing env o tag db_name backup force s).2 = none →
      (deploy_for_customer_testing env o tag db_name backup force s).1.any
        isUpgradeA = false →
      (deploy_for_customer_testing env o tag db_name backup force s).1.any
          isRollbackA = false ∧
      (deploy_for_customer_testing env o tag db_name backup force s).1.any
          isDropA = false ∧
      (deploy_for_customer_testing env o tag db_name backup force s).1.any
          isStartA = false) ∧
    ((fatalCode strict_params o.exportCode = true ∨
        fatalCode strict_params o.compressCode = true ∨
        fatalCode strict_params o.putCode = true ∨
        fatalCode stop_service_params o.stopCode = true ∨
        fatalCode strict_params o.savepointCode = true ∨
        (truthy backup = false ∧ fatalCode strict_params o.dumpCode = true) ∨
        fatalCode strict_params o.uncompressCode = true) →
      (deploy_for_customer_testing env o tag db_name backup force s).2 =
          none ∧
      (deploy_for_customer_testing env o tag db_name backup force s).1.any
          isUpgradeA = false) ∧
    (∀ c, deploy_for_customer_testing env { o with restoreCode := c }
        tag db_name backup force s =
      deploy_for_customer_testing env o tag db_name backup force s) := by
  refine ⟨?_, ?_, ?_, ?_, ?_, ?_, ?_, ?_⟩
  · simp only [deploy_for_internal_testing, dump_or_restore_database, rollback,
      finish_deploy, create_savepoint, dump_database, fatalCode_restore,
      apply_ite Prod.fst, apply_ite Prod.snd]
    simp [apply_ite (List.any · isRollbackA), apply_ite (List.any · isUpgradeA),
      isRollbackA, isUpgradeA]
    simp only [← Bool.not_eq_true]
    tauto
  · simp only [deploy_for_internal_testing, dump_or_restore_database, rollback,
      finish_deploy, create_savepoint, dump_database, fatalCode_restore,
      apply_ite Prod.fst, apply_ite Prod.snd]
    simp [apply_ite (List.any · isRollbackA), apply_ite (List.any · isUpgradeA),
      apply_ite (List.any · isDropA), apply_ite (List.any · isStartA),
      apply_ite Option.isNone, isRollbackA, isUpgradeA, isDropA, isStartA]
    simp only [← Bool.not_eq_true]
    tauto
  · simp only [deploy_for_internal_testing, dump_or_restore_database, rollback,
      finish_deploy, create_savepoint, dump_database, fatalCode_restore,
      apply_ite Prod.fst, apply_ite Prod.snd]
    simp [apply_ite (List.any · isUpgradeA), apply_ite Option.isNone,
      isUpgradeA, isRollbackA]
    simp only [← Bool.not_eq_true]
    tauto
  · intro c
    simp only [deploy_for_internal_testing, dump_or_restore_database, rollback,
      finish_deploy, create_savepoint, dump_database, fatalCode_restore]
  · simp only [deploy_for_customer_testing, dump_or_restore_database, rollback,
      finish_deploy, create_savepoint, dump_database, fatalCode_restore,
      apply_ite Prod.fst, apply_ite Prod.snd]
    simp [apply_ite (List.any · isRollbackA), apply_ite (List.any · isUpgradeA),
      isRollbackA, isUpgradeA]
    simp only [← Bool.not_eq_true]
    tauto
  · simp only [deploy_for_customer_testing, dump_or_restore_database, rollback,
      finish_deploy, create_savepoint, dump_database, fatalCode_restore,
      apply_ite Prod.fst, apply_ite Prod.snd]
    simp [apply_ite (List.any · isRollbackA), apply_ite (List.any · isUpgradeA),
      apply_ite (List.any · isDropA), apply_ite (List.any · isStartA),
      apply_ite Option.isNone, isRollbackA, isUpgradeA, isDropA, isStartA]
    simp only [← Bool.not_eq_true]
    tauto
  · simp only [deploy_for_customer_testing, dump_or_restore_database, rollback,
      finish_deploy, create_savepoint, dump_database, fatalCode_restore,
      apply_ite Prod.fst, apply_ite Prod.snd]
    simp [apply_ite (List.any · isUpgradeA), apply_ite Option.isNone,
      isUpgradeA, isRollbackA]
    simp only [← Bool.not_eq_true]
    tauto
  · intro c
    simp only [deploy_for_customer_testing, dump_or_restore_database, rollback,
      finish_deploy, create_savepoint, dump_database, fatalCode_restore]

/-- C2 witness: with every command succeeding except an upgrade exiting
1, the rollback step appears in the trace. -/
theorem rollback_iff_upgrade_nonzero_witness :
    (deploy_for_internal_testing env0 oC1 "1.2" "demo" none true st0).1.any
      isRollbackA = true :=
  (rollback_iff_upgrade_nonzero env0 oC1 "1.2" "demo" "v1" none true false
      st0).1.mpr ⟨by decide, by decide⟩

/- ================================================================
   C4 amended
   ================================================================ -/

set_option maxHeartbeats 4000000 in
/-- C4 amended: in both workflows at most one savepoint is created per
attempt; it is created after the service stop and before any step that
touches the sources directory or the database; it is dropped at most
once, and exactly once on every *completed* run (success or handled
rollback).  (When the rollback itself fails fatally the abort
propagates and the savepoint is not dropped — see the counterexample.) -/
theorem savepoint_lifecycle (env : Env) (o : Outcomes)
    (version db_name tag : String) (backup : Option String)
    (dnb force : Bool) (s : DeployState) :
    (deploy_for_internal_testing env o version db_name backup dnb s).1.countP
        isCreateSpA ≤ 1 ∧
    (deploy_for_internal_testing env o version db_name backup dnb s).1.countP
        isDropA ≤ 1 ∧
    afterOnly isStopA isCreateSpA
        (deploy_for_internal_testing env o version db_name backup dnb s).1 = true ∧
    afterOnly isCreateSpA touchesA
        (deploy_for_internal_testing env o version db_name backup dnb s).1 = true ∧
    ((deploy_for_internal_testing env o version db_name backup dnb s).2.isSome =
        true →
      (deploy_for_internal_testing env o version db_name backup dnb s).1.countP
          isDropA = 1 ∧
      (deploy_for_internal_testing env o version db_name backup dnb s).1.countP
          isCreateSpA = 1) ∧
    (deploy_for_customer_testing env o tag db_name backup force s).1.countP
        isCreateSpA ≤ 1 ∧
    (deploy_for_customer_testing env o tag db_name backup force s).1.countP
        isDropA ≤ 1 ∧
    afterOnly isStopA isCreateSpA
        (deploy_for_customer_testing env o tag db_name backup force s).1 = true ∧
    afterOnly isCreateSpA touchesA
        (deploy_for_customer_testing env o tag db_name backup force s).1 = true ∧
    ((deploy_for_customer_testing env o tag db_name backup force s).2.isSome =
        true →
      (deploy_for_customer_testing env o tag db_name backup force s).1.countP
          isDropA = 1 ∧
      (deploy_for_customer_testing env o tag db_name backup force s).1.countP
          isCreateSpA = 1) := by
  refine ⟨?_, ?_, ?_, ?_, ?_, ?_, ?_, ?_, ?_, ?_⟩
  · simp only [deploy_for_internal_testing, dump_or_restore_database, rollback,
      finish_deploy, create_savepoint, dump_database, fatalCode_restore,
      apply_ite Prod.fst, apply_ite Prod.snd]
    simp [apply_ite (List.countP isCreateSpA), isCreateSpA, isRollbackA]
    split_ifs <;> omega
  · simp only [deploy_for_internal_testing, dump_or_restore_database, rollback,
      finish_deploy, create_savepoint, dump_database, fatalCode_restore,
      apply_ite Prod.fst, apply_ite Prod.snd]
    simp [apply_ite (List.countP isDropA), isDropA, isRollbackA]
    split_ifs <;> omega
  · simp only [deploy_for_internal_testing, dump_or_restore_database, rollback,
      finish_deploy, create_savepoint, dump_database, fatalCode_restore,
      apply_ite Prod.fst, apply_ite Prod.snd]
    rcases backup with _ | b
    · by_cases hd : dnb = true <;>
        simp [apply_ite (afterOnly isStopA isCreateSpA), afterOnly, isStopA,
          isCreateSpA, touchesA, hd, truthy, dumpFileName, append_dump_ne_empty]
    · by_cases hb : b = "" <;> by_cases hd : dnb = true <;>
        simp [apply_ite (afterOnly isStopA isCreateSpA), afterOnly, isStopA,
          isCreateSpA, touchesA, hb, hd, truthy, dumpFileName,
          append_dump_ne_empty]
  · simp only [deploy_for_internal_testing, dump_or_restore_database, rollback,
      finish_deploy, create_savepoint, dump_database, fatalCode_restore,
      apply_ite Prod.fst, apply_ite Prod.snd]
    rcases backup with _ | b
    · by_cases hd : dnb = true <;>
        simp [apply_ite (afterOnly isCreateSpA touchesA), afterOnly, isStopA,
          isCreateSpA, touchesA, hd, truthy, dumpFileName, append_dump_ne_empty]
    · by_cases hb : b = "" <;> by_cases hd : dnb = true <;>
        simp [apply_ite (afterOnly isCreateSpA touchesA), afterOnly, isStopA,
          isCreateSpA, touchesA, hb, hd, truthy, dumpFileName,
          append_dump_ne_empty]
  · simp only [deploy_for_internal_testing, dump_or_restore_database, rollback,
      finish_deploy, create_savepoint, dump_database, fatalCode_restore,
      apply_ite Prod.fst, apply_ite Prod.snd]
    simp [apply_ite (List.countP isCreateSpA), apply_ite (List.countP isDropA),
      apply_ite Option.isSome, isCreateSpA, isDropA, isRollbackA]
    split_ifs <;> (try simp_all only [← Bool.not_eq_true]) <;> tauto
  · simp only [deploy_for_customer_testing, dump_or_restore_database, rollback,
      finish_deploy, create_savepoint, dump_database, fatalCode_restore,
      apply_ite Prod.fst, apply_ite Prod.snd]
    simp [apply_ite (List.countP isCreateSpA), isCreateSpA, isRollbackA]
    split_ifs <;> omega
  · simp only [deploy_for_customer_testing, dump_or_restore_database, rollback,
      finish_deploy, create_savepoint, dump_database, fatalCode_restore,
      apply_ite Prod.fst, apply_ite Prod.snd]
    simp [apply_ite (List.countP isDropA), isDropA, isRollbackA]
    split_ifs <;> omega
  · simp only [deploy_for_customer_testing, dump_or_restore_database, rollback,
      finish_deploy, create_savepoint, dump_database, fatalCode_restore,
      apply_ite Prod.fst, apply_ite Prod.snd]
    rcases backup with _ | b
    · simp [apply_ite (afterOnly isStopA isCreateSpA), afterOnly, isStopA,
        isCreateSpA, touchesA, truthy, dumpFileName, append_dump_ne_empty]
    · by_cases hb : b = "" <;>
        simp [apply_ite (afterOnly isStopA isCreateSpA), afterOnly, isStopA,
          isCreateSpA, touchesA, hb, truthy, dumpFileName, append_dump_ne_empty]
  · simp only [deploy_for_customer_testing, dump_or_restore_database, rollback,
      finish_deploy, create_savepoint, dump_database, fatalCode_restore,
      apply_ite Prod.fst, apply_ite Prod.snd]
    rcases backup with _ | b
    · simp [apply_ite (afterOnly isCreateSpA touchesA), afterOnly, isStopA,
        isCreateSpA, touchesA, truthy, dumpFileName, append_dump_ne_empty]
    · by_cases hb : b = "" <;>
        simp [apply_ite (afterOnly isCreateSpA touchesA), afterOnly, isStopA,
          isCreateSpA, touchesA, hb, truthy, dumpFileName, append_dump_ne_empty]
  · simp only [deploy_for_customer_testing, dump_or_restore_database, rollback,
      finish_deploy, create_savepoint, dump_database, fatalCode_restore,
      apply_ite Prod.fst, apply_ite Prod.snd]
    simp [apply_ite (List.countP isCreateSpA), apply_ite (List.countP isDropA),
      apply_ite Option.isSome, isCreateSpA, isDropA, isRollbackA]
    split_ifs <;> (try simp_all only [← Bool.not_eq_true]) <;> tauto

/-- C4 witness: a completed concrete run drops exactly the one
savepoint it created. -/
theorem savepoint_lifecycle_witness :
    (deploy_for_internal_testing env0 oZero "1.2" "demo" none true st0).1.countP
        isDropA = 1 ∧
    (deploy_for_internal_testing env0 oZero "1.2" "demo" none true st0).1.countP
        isCreateSpA = 1 :=
  (savepoint_lifecycle env0 oZero "1.2" "demo" "v1" none true false
      st0).2.2.2.2.1 (by decide)
